import Mathlib

/-!
Shallow embedding of the lego DNS-01 challenge providers for Cloudflare
(src/providers/dns/cloudflare/cloudflare.go) and Infoblox (src/unnamed/part_000).

Backend interactions (zone lookups, record creation/deletion, sessions) are
modelled as oracles: records of functions returning `Except String _`, mirroring
the Go error results.  `Present`/`CleanUp` are pure state transformers over the
provider value (whose record-reference map is an association list), and they
additionally return a trace of backend events so that statements about which
backend calls happen, and with which arguments, can be made precise.
-/

deriving instance DecidableEq for Except

/-- Modelled from the spec: the one-way digest of the key material computed by
`dns01.GetChallengeInfo` (the dns01 package is not under src/).  The spec only
requires a deterministic digest with no randomness or time dependency, so any
pure executable function of the key material is a faithful model. -/
def keyDigest (keyAuth : String) : String :=
  toString (keyAuth.data.foldl (fun h c => (h * 31 + c.toNat) % 2 ^ 64) 5381)

/-- Whether the name is in absolute form, i.e. has a trailing dot. -/
def hasTrailingDot (name : String) : Bool :=
  name.data.getLast? == some '.'

/-- Modelled from the spec: `dns01.ToFqdn`, normalization of a domain to the
absolute (trailing-dot) form used internally. -/
def ToFqdn (name : String) : String :=
  if hasTrailingDot name then name else name ++ "."

/-- Modelled from the spec: `dns01.UnFqdn`, the relative form handed to
backends, obtained by stripping the trailing dot. -/
def UnFqdn (name : String) : String :=
  if hasTrailingDot name then String.mk name.data.dropLast else name

/-- The challenge descriptor derived per call: effective FQDN and TXT value. -/
structure ChallengeInfo where
  effectiveFQDN : String
  value : String
  deriving Repr, DecidableEq

/-- Modelled from the spec: `dns01.GetChallengeInfo` (not under src/), the pure
derivation of the challenge descriptor: the effective name is the fixed
validation label prepended to the domain in absolute form, and the value is the
deterministic digest of the key material. -/
def GetChallengeInfo (domain keyAuth : String) : ChallengeInfo :=
  { effectiveFQDN := "_acme-challenge." ++ ToFqdn domain
    value := keyDigest keyAuth }

/-- The record-reference store: a map from challenge token to the opaque
backend reference, embedded as an association list (the Go `map[string]string`
guarded by a mutex; the mutex has no pure content). -/
abbrev Store := List (String × String)

/-- Map lookup, `ref, ok := m[token]`. -/
def Store.get (s : Store) (k : String) : Option String :=
  (s.find? (fun p => p.1 == k)).map (fun p => p.2)

/-- Map insert/overwrite, `m[token] = ref`. -/
def Store.put (s : Store) (k v : String) : Store :=
  (k, v) :: s.filter (fun p => p.1 != k)

/-- Map deletion, `delete(m, token)`; a no-op when the key is absent. -/
def Store.remove (s : Store) (k : String) : Store :=
  s.filter (fun p => p.1 != k)

namespace Cloudflare

/-- `minTTL` from cloudflare.go. -/
def minTTL : Int := 120

/-- The `Config` struct of the Cloudflare provider (durations as integers). -/
structure Config where
  AuthEmail : String
  AuthKey : String
  AuthToken : String
  ZoneToken : String
  BaseURL : String
  TTL : Int
  PropagationTimeout : Int
  PollingInterval : Int
  deriving Repr, DecidableEq

/-- The `internal.Record` payload built by `Present`. -/
structure Record where
  type : String
  name : String
  content : String
  ttl : Int
  deriving Repr, DecidableEq

/-- Oracle for the backend calls made by the Cloudflare provider:
`dns01.FindZoneByFqdn`, `metaClient.ZoneIDByName`, `CreateDNSRecord`
(returning the new record ID) and `DeleteDNSRecord`. -/
structure Backend where
  findZone : String → Except String String
  zoneIDByName : String → Except String String
  createDNSRecord : String → Record → Except String String
  deleteDNSRecord : String → String → Except String Unit

/-- Trace of backend interactions performed by one call. -/
inductive Event where
  | findZone (fqdn : String)
  | zoneLookup (zone : String)
  | create (zoneID : String) (record : Record)
  | delete (zoneID : String) (recordID : String)
  deriving Repr, DecidableEq

/-- The `DNSProvider` struct: configuration plus the record-ID store. -/
structure DNSProvider where
  config : Config
  recordIDs : Store
  deriving Repr, DecidableEq

/-- Modelled from the spec: `newClient` (providers/dns/cloudflare/internal is
not under src/) validates the credential configuration at construction time,
requiring either an API token or an email plus API key. -/
def newClient (config : Config) : Except String Unit :=
  if config.AuthToken != "" || (config.AuthEmail != "" && config.AuthKey != "") then
    Except.ok ()
  else
    Except.error "invalid credentials: an API token or an email with an API key is required"

/-- The construction steps of `NewDNSProviderConfig` after the TTL check. -/
def afterTTLCheck (config : Config) : Except String DNSProvider :=
  match newClient config with
  | Except.error e => Except.error ("cloudflare: " ++ e)
  | Except.ok _ => Except.ok { config := config, recordIDs := [] }

/-- `NewDNSProviderConfig` from cloudflare.go: nil check, TTL floor check,
client construction; the configuration is stored unchanged. -/
def NewDNSProviderConfig (config : Option Config) : Except String DNSProvider :=
  match config with
  | none => Except.error "cloudflare: the configuration of the DNS provider is nil"
  | some cfg =>
    if cfg.TTL < minTTL then
      Except.error ("cloudflare: invalid TTL, TTL (" ++ toString cfg.TTL ++
        ") must be greater than " ++ toString minTTL)
    else
      afterTTLCheck cfg

/-- `Timeout` from cloudflare.go: returns the configured propagation timeout
and polling interval; the provider is untouched and no backend event occurs. -/
def Timeout (d : DNSProvider) : (Int × Int) × DNSProvider × List Event :=
  ((d.config.PropagationTimeout, d.config.PollingInterval), d, [])

/-- `Present` from cloudflare.go: derive the descriptor, resolve the zone,
create the TXT record (relative name, quoted content, configured TTL), then
store the returned record ID under the token. -/
def Present (b : Backend) (d : DNSProvider) (domain token keyAuth : String) :
    Except String Unit × DNSProvider × List Event :=
  let info := GetChallengeInfo domain keyAuth
  match b.findZone info.effectiveFQDN with
  | Except.error e =>
    (Except.error ("cloudflare: could not find zone for domain \"" ++ domain ++ "\": " ++ e),
      d, [Event.findZone info.effectiveFQDN])
  | Except.ok authZone =>
    match b.zoneIDByName authZone with
    | Except.error e =>
      (Except.error ("cloudflare: failed to find zone " ++ authZone ++ ": " ++ e),
        d, [Event.findZone info.effectiveFQDN, Event.zoneLookup authZone])
    | Except.ok zoneID =>
      let dnsRecord : Record :=
        { type := "TXT"
          name := UnFqdn info.effectiveFQDN
          content := "\"" ++ info.value ++ "\""
          ttl := d.config.TTL }
      match b.createDNSRecord zoneID dnsRecord with
      | Except.error e =>
        (Except.error ("cloudflare: failed to create TXT record: " ++ e),
          d, [Event.findZone info.effectiveFQDN, Event.zoneLookup authZone,
            Event.create zoneID dnsRecord])
      | Except.ok responseID =>
        (Except.ok (), { d with recordIDs := d.recordIDs.put token responseID },
          [Event.findZone info.effectiveFQDN, Event.zoneLookup authZone,
            Event.create zoneID dnsRecord])

/-- `CleanUp` from cloudflare.go: resolve the zone first, then look the token
up in the store (failing if absent), then delete; a delete failure is only
logged, and the store entry is removed unconditionally afterwards. -/
def CleanUp (b : Backend) (d : DNSProvider) (domain token keyAuth : String) :
    Except String Unit × DNSProvider × List Event :=
  let info := GetChallengeInfo domain keyAuth
  match b.findZone info.effectiveFQDN with
  | Except.error e =>
    (Except.error ("cloudflare: could not find zone for domain \"" ++ domain ++ "\": " ++ e),
      d, [Event.findZone info.effectiveFQDN])
  | Except.ok authZone =>
    match b.zoneIDByName authZone with
    | Except.error e =>
      (Except.error ("cloudflare: failed to find zone " ++ authZone ++ ": " ++ e),
        d, [Event.findZone info.effectiveFQDN, Event.zoneLookup authZone])
    | Except.ok zoneID =>
      match d.recordIDs.get token with
      | none =>
        (Except.error ("cloudflare: unknown record ID for \x27" ++ info.effectiveFQDN ++ "\x27"),
          d, [Event.findZone info.effectiveFQDN, Event.zoneLookup authZone])
      | some recordID =>
        -- the result of DeleteDNSRecord is only logged, never propagated
        (Except.ok (), { d with recordIDs := d.recordIDs.remove token },
          [Event.findZone info.effectiveFQDN, Event.zoneLookup authZone,
            Event.delete zoneID recordID])

end Cloudflare

namespace Infoblox

/-- The `Config` struct of the Infoblox provider (durations as integers). -/
structure Config where
  Host : String
  Port : String
  Username : String
  Password : String
  DNSView : String
  WapiVersion : String
  SSLVerify : Bool
  CACertificate : String
  PropagationTimeout : Int
  PollingInterval : Int
  TTL : Int
  HTTPTimeout : Int
  deriving Repr, DecidableEq

/-- Oracle for the backend calls made by the Infoblox provider:
`infoblox.NewConnector` (session establishment), `CreateTXTRecord`
(returning the record reference) and `DeleteTXTRecord`. -/
structure Backend where
  newConnector : Except String Unit
  createTXTRecord : String → String → String → Nat → Except String String
  deleteTXTRecord : String → Except String String

/-- Trace of backend interactions performed by one call. -/
inductive Event where
  | openSession
  | closeSession
  | create (view name value : String) (ttl : Nat)
  | delete (ref : String)
  deriving Repr, DecidableEq

/-- The `DNSProvider` struct: configuration, the `sslVerify` string computed at
construction, and the record-reference store. -/
structure DNSProvider where
  config : Config
  sslVerify : String
  recordRefs : Store
  deriving Repr, DecidableEq

/-- Go conversion `uint32(ttl)` applied to the configured TTL. -/
def uint32Of (x : Int) : Nat :=
  (x % (2 ^ 32 : Int)).toNat

/-- `NewDNSProviderConfig` from the Infoblox file: nil check, host and
credential checks, `sslVerify` selection; the configuration is stored
unchanged. -/
def NewDNSProviderConfig (config : Option Config) : Except String DNSProvider :=
  match config with
  | none => Except.error "infoblox: the configuration of the DNS provider is nil"
  | some cfg =>
    if cfg.Host == "" then
      Except.error "infoblox: missing host"
    else if cfg.Username == "" || cfg.Password == "" then
      Except.error "infoblox: missing credentials"
    else
      Except.ok
        { config := cfg
          sslVerify := if cfg.CACertificate != "" then cfg.CACertificate else toString cfg.SSLVerify
          recordRefs := [] }

/-- `Timeout` from the Infoblox file: returns the configured propagation
timeout and polling interval; the provider is untouched, no backend event. -/
def Timeout (d : DNSProvider) : (Int × Int) × DNSProvider × List Event :=
  ((d.config.PropagationTimeout, d.config.PollingInterval), d, [])

/-- `Present` from the Infoblox file: open a connector (closed on every later
path by the deferred Logout), create the TXT record in the configured DNS view
with the relative name, then store the returned reference under the token. -/
def Present (b : Backend) (d : DNSProvider) (domain token keyAuth : String) :
    Except String Unit × DNSProvider × List Event :=
  let info := GetChallengeInfo domain keyAuth
  match b.newConnector with
  | Except.error e => (Except.error ("infoblox: " ++ e), d, [])
  | Except.ok _ =>
    match b.createTXTRecord d.config.DNSView (UnFqdn info.effectiveFQDN) info.value
        (uint32Of d.config.TTL) with
    | Except.error e =>
      (Except.error ("infoblox: could not create TXT record for " ++ domain ++ ": " ++ e),
        d, [Event.openSession,
          Event.create d.config.DNSView (UnFqdn info.effectiveFQDN) info.value
            (uint32Of d.config.TTL), Event.closeSession])
    | Except.ok ref =>
      (Except.ok (), { d with recordRefs := d.recordRefs.put token ref },
        [Event.openSession,
          Event.create d.config.DNSView (UnFqdn info.effectiveFQDN) info.value
            (uint32Of d.config.TTL), Event.closeSession])

/-- `CleanUp` from the Infoblox file: open a connector first, then look the
token up in the store (failing if absent), then delete; a delete failure is
returned as an error and the store entry is removed only on success. -/
def CleanUp (b : Backend) (d : DNSProvider) (domain token keyAuth : String) :
    Except String Unit × DNSProvider × List Event :=
  let info := GetChallengeInfo domain keyAuth
  match b.newConnector with
  | Except.error e => (Except.error ("infoblox: " ++ e), d, [])
  | Except.ok _ =>
    match d.recordRefs.get token with
    | none =>
      (Except.error ("infoblox: unknown record ID for \x27" ++ info.effectiveFQDN ++
          "\x27 \x27" ++ token ++ "\x27"),
        d, [Event.openSession, Event.closeSession])
    | some recordRef =>
      match b.deleteTXTRecord recordRef with
      | Except.error e =>
        (Except.error ("infoblox: could not delete TXT record for " ++ domain ++ ": " ++ e),
          d, [Event.openSession, Event.delete recordRef, Event.closeSession])
      | Except.ok _ =>
        (Except.ok (), { d with recordRefs := d.recordRefs.remove token },
          [Event.openSession, Event.delete recordRef, Event.closeSession])

end Infoblox

/-! ### Concrete fixtures used by counterexamples and witnesses -/

/-- A valid Cloudflare configuration with the minimum TTL. -/
def cfConfig1 : Cloudflare.Config :=
  { AuthEmail := "", AuthKey := "", AuthToken := "api-token", ZoneToken := ""
    BaseURL := "", TTL := 120, PropagationTimeout := 120, PollingInterval := 2 }

/-- A Cloudflare backend on which every call succeeds. -/
def cfBackendOk : Cloudflare.Backend :=
  { findZone := fun _ => Except.ok "example.com."
    zoneIDByName := fun _ => Except.ok "zone-1"
    createDNSRecord := fun _ _ => Except.ok "rec-1"
    deleteDNSRecord := fun _ _ => Except.ok () }

/-- A Cloudflare backend whose delete reports the record as already gone. -/
def cfBackendDelGone : Cloudflare.Backend :=
  { cfBackendOk with deleteDNSRecord := fun _ _ => Except.error "record does not exist" }

/-- A Cloudflare backend whose record creation fails. -/
def cfBackendCreateFail : Cloudflare.Backend :=
  { cfBackendOk with createDNSRecord := fun _ _ => Except.error "quota exceeded" }

/-- A freshly constructed Cloudflare provider with an empty store. -/
def cfProv1 : Cloudflare.DNSProvider :=
  { config := cfConfig1, recordIDs := [] }

/-- A valid Infoblox configuration. -/
def ibConfig1 : Infoblox.Config :=
  { Host := "gm.example", Port := "443", Username := "admin", Password := "pw"
    DNSView := "External", WapiVersion := "2.11", SSLVerify := true, CACertificate := ""
    PropagationTimeout := 120, PollingInterval := 2, TTL := 120, HTTPTimeout := 30 }

/-- An Infoblox backend on which every call succeeds. -/
def ibBackendOk : Infoblox.Backend :=
  { newConnector := Except.ok ()
    createTXTRecord := fun _ _ _ _ => Except.ok "txtrecord/ZG5z:ref-1"
    deleteTXTRecord := fun r => Except.ok r }

/-- An Infoblox backend whose delete reports the record as already gone. -/
def ibBackendDelGone : Infoblox.Backend :=
  { ibBackendOk with deleteTXTRecord := fun _ => Except.error "record does not exist" }

/-- An Infoblox backend whose record creation fails. -/
def ibBackendCreateFail : Infoblox.Backend :=
  { ibBackendOk with createTXTRecord := fun _ _ _ _ => Except.error "quota exceeded" }

/-- A freshly constructed Infoblox provider with an empty store. -/
def ibProv1 : Infoblox.DNSProvider :=
  { config := ibConfig1, sslVerify := "true", recordRefs := [] }

/-- A Cloudflare configuration with a TTL below the floor. -/
def cfConfigLow : Cloudflare.Config :=
  { cfConfig1 with TTL := 119 }

/-- A Cloudflare provider holding one outstanding record reference. -/
def cfProvWith : Cloudflare.DNSProvider :=
  { config := cfConfig1, recordIDs := [("tok", "rec-1")] }

/-- An Infoblox provider holding one outstanding record reference. -/
def ibProvWith : Infoblox.DNSProvider :=
  { config := ibConfig1, sslVerify := "true", recordRefs := [("tok", "ref-1")] }

/-! ### Store lemmas -/

/-- After removing a token, the store has no entry for it. -/
theorem store_get_remove (s : Store) (k : String) :
    Store.get (Store.remove s k) k = none := by
  unfold Store.get Store.remove
  rw [Option.map_eq_none', List.find?_eq_none]
  intro p hp
  have hk := List.of_mem_filter hp
  simpa [bne] using hk

/-- Looking up a freshly inserted token yields the inserted reference. -/
theorem store_get_put (s : Store) (k v : String) :
    Store.get (Store.put s k v) k = some v := by
  simp [Store.get, Store.put, List.find?]

/-- A Cloudflare `CleanUp` that returns success leaves no store entry for the
token: every successful path ends in the unconditional map deletion. -/
theorem cf_cleanup_ok_no_entry (b : Cloudflare.Backend) (d : Cloudflare.DNSProvider)
    (domain token keyAuth : String)
    (h : (Cloudflare.CleanUp b d domain token keyAuth).1 = Except.ok ()) :
    Store.get (Cloudflare.CleanUp b d domain token keyAuth).2.1.recordIDs token = none := by
  rcases h1 : b.findZone (GetChallengeInfo domain keyAuth).effectiveFQDN with e | az
  · simp [Cloudflare.CleanUp, h1] at h
  · rcases h2 : b.zoneIDByName az with e | zid
    · simp [Cloudflare.CleanUp, h1, h2] at h
    · rcases h3 : Store.get d.recordIDs token with _ | rid
      · simp [Cloudflare.CleanUp, h1, h2, h3] at h
      · simp only [Cloudflare.CleanUp, h1, h2, h3]
        exact store_get_remove d.recordIDs token

/-- An Infoblox `CleanUp` that returns success leaves no store entry for the
token: the only successful path removes the entry after a successful delete. -/
theorem ib_cleanup_ok_no_entry (b : Infoblox.Backend) (d : Infoblox.DNSProvider)
    (domain token keyAuth : String)
    (h : (Infoblox.CleanUp b d domain token keyAuth).1 = Except.ok ()) :
    Store.get (Infoblox.CleanUp b d domain token keyAuth).2.1.recordRefs token = none := by
  rcases h1 : b.newConnector with e | u
  · simp [Infoblox.CleanUp, h1] at h
  · rcases h2 : Store.get d.recordRefs token with _ | ref
    · simp [Infoblox.CleanUp, h1, h2] at h
    · rcases h3 : b.deleteTXTRecord ref with e | r
      · simp [Infoblox.CleanUp, h1, h2, h3] at h
      · simp only [Infoblox.CleanUp, h1, h2, h3]
        exact store_get_remove d.recordRefs token

/-! ### Claims -/

/-- C6 (confirmed): the challenge-descriptor derivation is deterministic —
identical (domain, key-material) inputs yield identical effective names and
identical expected TXT values; the derivation is a pure function with no
dependence on randomness or time. -/
theorem C6_derive_deterministic (d1 d2 k1 k2 : String) (hd : d1 = d2) (hk : k1 = k2) :
    (GetChallengeInfo d1 k1).effectiveFQDN = (GetChallengeInfo d2 k2).effectiveFQDN ∧
    (GetChallengeInfo d1 k1).value = (GetChallengeInfo d2 k2).value := by
  subst hd
  subst hk
  exact ⟨rfl, rfl⟩

/-- C6 witness: the derivation at a concrete input agrees with itself. -/
theorem C6_derive_deterministic_witness :
    (GetChallengeInfo "example.com" "tok.thumb").effectiveFQDN =
      (GetChallengeInfo "example.com" "tok.thumb").effectiveFQDN ∧
    (GetChallengeInfo "example.com" "tok.thumb").value =
      (GetChallengeInfo "example.com" "tok.thumb").value :=
  C6_derive_deterministic "example.com" "example.com" "tok.thumb" "tok.thumb" rfl rfl

/-- C7 (confirmed): `Timeout` on both providers returns exactly the configured
(PropagationTimeout, PollingInterval) pair, performs no backend call (empty
event trace) and leaves the provider, including its store, unchanged. -/
theorem C7_timeout_pure_accessor (cd : Cloudflare.DNSProvider) (idp : Infoblox.DNSProvider) :
    Cloudflare.Timeout cd = ((cd.config.PropagationTimeout, cd.config.PollingInterval), cd, []) ∧
    Infoblox.Timeout idp = ((idp.config.PropagationTimeout, idp.config.PollingInterval), idp, []) :=
  ⟨rfl, rfl⟩

/-- C5 (confirmed): a Cloudflare configuration with TTL below the backend
minimum of 120 is rejected at construction with a configuration error, and a
successfully constructed provider stores the configured TTL unchanged (no
clamping). -/
theorem C5_ttl_floor (cfg : Cloudflare.Config) :
    (cfg.TTL < Cloudflare.minTTL →
      Cloudflare.NewDNSProviderConfig (some cfg) =
        Except.error ("cloudflare: invalid TTL, TTL (" ++ toString cfg.TTL ++
          ") must be greater than " ++ toString Cloudflare.minTTL)) ∧
    (∀ p, Cloudflare.NewDNSProviderConfig (some cfg) = Except.ok p → p.config.TTL = cfg.TTL) := by
  constructor
  · intro h
    simp only [Cloudflare.NewDNSProviderConfig]
    rw [if_pos h]
  · intro p hp
    simp only [Cloudflare.NewDNSProviderConfig] at hp
    by_cases h : cfg.TTL < Cloudflare.minTTL
    · rw [if_pos h] at hp
      cases hp
    · rw [if_neg h] at hp
      unfold Cloudflare.afterTTLCheck at hp
      rcases hnc : Cloudflare.newClient cfg with e | u
      · rw [hnc] at hp
        cases hp
      · rw [hnc] at hp
        cases hp
        rfl

/-- C5 witness: TTL 119 is rejected with the configuration error, and the
provider built from the TTL-120 configuration stores TTL 120. -/
theorem C5_ttl_floor_witness :
    Cloudflare.NewDNSProviderConfig (some cfConfigLow) =
      Except.error ("cloudflare: invalid TTL, TTL (" ++ toString cfConfigLow.TTL ++
        ") must be greater than " ++ toString Cloudflare.minTTL) ∧
    cfProv1.config.TTL = cfConfig1.TTL :=
  ⟨(C5_ttl_floor cfConfigLow).1 (by decide), (C5_ttl_floor cfConfig1).2 cfProv1 rfl⟩

/-- C10 (confirmed): the Cloudflare construction-time TTL check rejects exactly
the configurations with TTL strictly below 120 (the rejection message reads
"must be greater than 120" although the comparison is strict-less-than): any
configuration with TTL at least 120, in particular exactly 120, passes the TTL
check and construction proceeds to the client step. -/
theorem C10_ttl_boundary (cfg : Cloudflare.Config) :
    (cfg.TTL < 120 →
      Cloudflare.NewDNSProviderConfig (some cfg) =
        Except.error ("cloudflare: invalid TTL, TTL (" ++ toString cfg.TTL ++
          ") must be greater than " ++ toString Cloudflare.minTTL)) ∧
    (120 ≤ cfg.TTL →
      Cloudflare.NewDNSProviderConfig (some cfg) = Cloudflare.afterTTLCheck cfg) := by
  constructor
  · intro h
    simp only [Cloudflare.NewDNSProviderConfig]
    rw [if_pos (show cfg.TTL < Cloudflare.minTTL from h)]
  · intro h
    simp only [Cloudflare.NewDNSProviderConfig]
    rw [if_neg (not_lt.mpr (show Cloudflare.minTTL ≤ cfg.TTL from h))]

/-- C10 witness: TTL 119 fails construction while the boundary value TTL 120
passes the check and yields a constructed provider. -/
theorem C10_ttl_boundary_witness :
    Cloudflare.NewDNSProviderConfig (some cfConfigLow) =
      Except.error ("cloudflare: invalid TTL, TTL (" ++ toString cfConfigLow.TTL ++
        ") must be greater than " ++ toString Cloudflare.minTTL) ∧
    Cloudflare.NewDNSProviderConfig (some cfConfig1) = Cloudflare.afterTTLCheck cfConfig1 ∧
    Cloudflare.afterTTLCheck cfConfig1 = Except.ok cfProv1 :=
  ⟨(C10_ttl_boundary cfConfigLow).1 (by decide),
    (C10_ttl_boundary cfConfig1).2 (by decide), rfl⟩

/-- C1 counterexample: a Cloudflare `CleanUp` for a token never presented
(empty store) does return the unknown-record error, but only after performing a
backend zone lookup — the trace contains a zone-lookup call, refuting that no
backend call happens before the failure. -/
theorem C1_counterexample :
    (Cloudflare.CleanUp cfBackendOk cfProv1 "example.com" "tok" "ka").1 =
      Except.error "cloudflare: unknown record ID for \x27_acme-challenge.example.com.\x27" ∧
    Cloudflare.Event.zoneLookup "example.com." ∈
      (Cloudflare.CleanUp cfBackendOk cfProv1 "example.com" "tok" "ka").2.2 := by
  decide

/-- C1 (amended): `CleanUp` with a token that was never stored returns the
unknown-record error, performs no delete call and leaves the store unchanged,
in both providers; however the Cloudflare provider performs zone resolution and
the Infoblox provider opens a backend session before the token check. -/
theorem C1_unknown_cleanup
    (cb : Cloudflare.Backend) (cd : Cloudflare.DNSProvider)
    (ib : Infoblox.Backend) (idp : Infoblox.DNSProvider)
    (domain token keyAuth az zid : String)
    (h1 : cb.findZone (GetChallengeInfo domain keyAuth).effectiveFQDN = Except.ok az)
    (h2 : cb.zoneIDByName az = Except.ok zid)
    (h3 : Store.get cd.recordIDs token = none)
    (h4 : ib.newConnector = Except.ok ())
    (h5 : Store.get idp.recordRefs token = none) :
    ((Cloudflare.CleanUp cb cd domain token keyAuth).1 =
        Except.error ("cloudflare: unknown record ID for \x27" ++
          (GetChallengeInfo domain keyAuth).effectiveFQDN ++ "\x27") ∧
      (Cloudflare.CleanUp cb cd domain token keyAuth).2.1 = cd ∧
      (∀ z r, Cloudflare.Event.delete z r ∉ (Cloudflare.CleanUp cb cd domain token keyAuth).2.2) ∧
      Cloudflare.Event.zoneLookup az ∈ (Cloudflare.CleanUp cb cd domain token keyAuth).2.2) ∧
    ((Infoblox.CleanUp ib idp domain token keyAuth).1 =
        Except.error ("infoblox: unknown record ID for \x27" ++
          (GetChallengeInfo domain keyAuth).effectiveFQDN ++ "\x27 \x27" ++ token ++ "\x27") ∧
      (Infoblox.CleanUp ib idp domain token keyAuth).2.1 = idp ∧
      (∀ r, Infoblox.Event.delete r ∉ (Infoblox.CleanUp ib idp domain token keyAuth).2.2) ∧
      Infoblox.Event.openSession ∈ (Infoblox.CleanUp ib idp domain token keyAuth).2.2) := by
  refine ⟨⟨?_, ?_, ?_, ?_⟩, ⟨?_, ?_, ?_, ?_⟩⟩ <;>
    simp [Cloudflare.CleanUp, Infoblox.CleanUp, h1, h2, h3, h4, h5]

/-- C1 witness: the amended statement evaluated on an all-success backend with
an empty store. -/
theorem C1_unknown_cleanup_witness :
    (Cloudflare.CleanUp cfBackendOk cfProv1 "example.com" "tok" "ka").2.1 = cfProv1 ∧
    (Infoblox.CleanUp ibBackendOk ibProv1 "example.com" "tok" "ka").2.1 = ibProv1 :=
  ⟨(C1_unknown_cleanup cfBackendOk cfProv1 ibBackendOk ibProv1 "example.com" "tok" "ka"
      "example.com." "zone-1" rfl rfl rfl rfl rfl).1.2.1,
    (C1_unknown_cleanup cfBackendOk cfProv1 ibBackendOk ibProv1 "example.com" "tok" "ka"
      "example.com." "zone-1" rfl rfl rfl rfl rfl).2.2.1⟩

/-- C2 counterexample: with a stored reference for the token and a backend
delete reporting the record already gone, the Infoblox `CleanUp` returns the
wrapped delete error and keeps the store entry — refuting that both providers
clear the entry and succeed. -/
theorem C2_counterexample :
    (Infoblox.CleanUp ibBackendDelGone ibProvWith "example.com" "tok" "ka").1 =
      Except.error "infoblox: could not delete TXT record for example.com: record does not exist" ∧
    Store.get (Infoblox.CleanUp ibBackendDelGone ibProvWith "example.com" "tok" "ka").2.1.recordRefs
      "tok" = some "ref-1" := by
  decide

/-- C2 (amended): when the backend delete reports the referenced record as no
longer existing, the Cloudflare provider still removes the store entry for the
token and returns success, while the Infoblox provider returns the wrapped
delete error and retains the store entry. -/
theorem C2_already_deleted_cleanup
    (cb : Cloudflare.Backend) (cd : Cloudflare.DNSProvider)
    (ib : Infoblox.Backend) (idp : Infoblox.DNSProvider)
    (domain token keyAuth az zid recID ref e1 e2 : String)
    (h1 : cb.findZone (GetChallengeInfo domain keyAuth).effectiveFQDN = Except.ok az)
    (h2 : cb.zoneIDByName az = Except.ok zid)
    (h3 : Store.get cd.recordIDs token = some recID)
    (h4 : cb.deleteDNSRecord zid recID = Except.error e1)
    (h5 : ib.newConnector = Except.ok ())
    (h6 : Store.get idp.recordRefs token = some ref)
    (h7 : ib.deleteTXTRecord ref = Except.error e2) :
    ((Cloudflare.CleanUp cb cd domain token keyAuth).1 = Except.ok () ∧
      Store.get (Cloudflare.CleanUp cb cd domain token keyAuth).2.1.recordIDs token = none) ∧
    ((Infoblox.CleanUp ib idp domain token keyAuth).1 =
        Except.error ("infoblox: could not delete TXT record for " ++ domain ++ ": " ++ e2) ∧
      Store.get (Infoblox.CleanUp ib idp domain token keyAuth).2.1.recordRefs token = some ref) := by
  refine ⟨⟨?_, ?_⟩, ⟨?_, ?_⟩⟩
  · simp [Cloudflare.CleanUp, h1, h2, h3]
  · simp only [Cloudflare.CleanUp, h1, h2, h3]
    exact store_get_remove cd.recordIDs token
  · simp [Infoblox.CleanUp, h5, h6, h7]
  · simp [Infoblox.CleanUp, h5, h6, h7]

/-- C2 witness: the amended statement evaluated on backends whose delete
reports the record as already gone. -/
theorem C2_already_deleted_cleanup_witness :
    ((Cloudflare.CleanUp cfBackendDelGone cfProvWith "example.com" "tok" "ka").1 = Except.ok () ∧
      Store.get (Cloudflare.CleanUp cfBackendDelGone cfProvWith "example.com" "tok" "ka").2.1.recordIDs
        "tok" = none) ∧
    ((Infoblox.CleanUp ibBackendDelGone ibProvWith "example.com" "tok" "ka").1 =
        Except.error ("infoblox: could not delete TXT record for " ++ "example.com" ++ ": " ++
          "record does not exist") ∧
      Store.get (Infoblox.CleanUp ibBackendDelGone ibProvWith "example.com" "tok" "ka").2.1.recordRefs
        "tok" = some "ref-1") :=
  C2_already_deleted_cleanup cfBackendDelGone cfProvWith ibBackendDelGone ibProvWith
    "example.com" "tok" "ka" "example.com." "zone-1" "rec-1" "ref-1"
    "record does not exist" "record does not exist" rfl rfl rfl rfl rfl rfl rfl

/-- C3 (confirmed): a successful `Present` followed by a successful `CleanUp`
with the same (domain, token, key-material) leaves the record-reference store
with no entry for the token, in both providers. -/
theorem C3_round_trip
    (cb : Cloudflare.Backend) (cd : Cloudflare.DNSProvider)
    (ib : Infoblox.Backend) (idp : Infoblox.DNSProvider)
    (domain token keyAuth : String) :
    ((Cloudflare.Present cb cd domain token keyAuth).1 = Except.ok () →
      (Cloudflare.CleanUp cb (Cloudflare.Present cb cd domain token keyAuth).2.1
          domain token keyAuth).1 = Except.ok () →
      Store.get (Cloudflare.CleanUp cb (Cloudflare.Present cb cd domain token keyAuth).2.1
          domain token keyAuth).2.1.recordIDs token = none) ∧
    ((Infoblox.Present ib idp domain token keyAuth).1 = Except.ok () →
      (Infoblox.CleanUp ib (Infoblox.Present ib idp domain token keyAuth).2.1
          domain token keyAuth).1 = Except.ok () →
      Store.get (Infoblox.CleanUp ib (Infoblox.Present ib idp domain token keyAuth).2.1
          domain token keyAuth).2.1.recordRefs token = none) :=
  ⟨fun _ hc => cf_cleanup_ok_no_entry cb _ domain token keyAuth hc,
    fun _ hc => ib_cleanup_ok_no_entry ib _ domain token keyAuth hc⟩

/-- C3 witness: the round trip evaluated on all-success backends starting from
empty stores. -/
theorem C3_round_trip_witness :
    Store.get (Cloudflare.CleanUp cfBackendOk
        (Cloudflare.Present cfBackendOk cfProv1 "example.com" "tok" "ka").2.1
        "example.com" "tok" "ka").2.1.recordIDs "tok" = none ∧
    Store.get (Infoblox.CleanUp ibBackendOk
        (Infoblox.Present ibBackendOk ibProv1 "example.com" "tok" "ka").2.1
        "example.com" "tok" "ka").2.1.recordRefs "tok" = none :=
  ⟨(C3_round_trip cfBackendOk cfProv1 ibBackendOk ibProv1 "example.com" "tok" "ka").1
      (by decide) (by decide),
    (C3_round_trip cfBackendOk cfProv1 ibBackendOk ibProv1 "example.com" "tok" "ka").2
      (by decide) (by decide)⟩

/-- C4 (confirmed): when the backend record-creation step fails, `Present`
returns the wrapped creation error and the provider — including the
record-reference store — is left unchanged, in both providers. -/
theorem C4_create_failure_leaves_store
    (cb : Cloudflare.Backend) (cd : Cloudflare.DNSProvider)
    (ib : Infoblox.Backend) (idp : Infoblox.DNSProvider)
    (domain token keyAuth az zid e1 e2 : String)
    (h1 : cb.findZone (GetChallengeInfo domain keyAuth).effectiveFQDN = Except.ok az)
    (h2 : cb.zoneIDByName az = Except.ok zid)
    (h3 : cb.createDNSRecord zid
        { type := "TXT", name := UnFqdn (GetChallengeInfo domain keyAuth).effectiveFQDN,
          content := "\"" ++ (GetChallengeInfo domain keyAuth).value ++ "\"",
          ttl := cd.config.TTL } = Except.error e1)
    (h4 : ib.newConnector = Except.ok ())
    (h5 : ib.createTXTRecord idp.config.DNSView
        (UnFqdn (GetChallengeInfo domain keyAuth).effectiveFQDN)
        (GetChallengeInfo domain keyAuth).value
        (Infoblox.uint32Of idp.config.TTL) = Except.error e2) :
    ((Cloudflare.Present cb cd domain token keyAuth).1 =
        Except.error ("cloudflare: failed to create TXT record: " ++ e1) ∧
      (Cloudflare.Present cb cd domain token keyAuth).2.1 = cd) ∧
    ((Infoblox.Present ib idp domain token keyAuth).1 =
        Except.error ("infoblox: could not create TXT record for " ++ domain ++ ": " ++ e2) ∧
      (Infoblox.Present ib idp domain token keyAuth).2.1 = idp) := by
  refine ⟨?_, ?_⟩
  · simp [Cloudflare.Present, h1, h2, h3]
  · simp [Infoblox.Present, h4, h5]

/-- C4 witness: the statement evaluated on backends whose create step fails. -/
theorem C4_create_failure_leaves_store_witness :
    ((Cloudflare.Present cfBackendCreateFail cfProv1 "example.com" "tok" "ka").1 =
        Except.error ("cloudflare: failed to create TXT record: " ++ "quota exceeded") ∧
      (Cloudflare.Present cfBackendCreateFail cfProv1 "example.com" "tok" "ka").2.1 = cfProv1) ∧
    ((Infoblox.Present ibBackendCreateFail ibProv1 "example.com" "tok" "ka").1 =
        Except.error ("infoblox: could not create TXT record for " ++ "example.com" ++ ": " ++
          "quota exceeded") ∧
      (Infoblox.Present ibBackendCreateFail ibProv1 "example.com" "tok" "ka").2.1 = ibProv1) :=
  C4_create_failure_leaves_store cfBackendCreateFail cfProv1 ibBackendCreateFail ibProv1
    "example.com" "tok" "ka" "example.com." "zone-1" "quota exceeded" "quota exceeded"
    rfl rfl rfl rfl rfl

/-- C8 (confirmed): every record-creation call issued by `Present` carries the
relative form of the derived effective FQDN (trailing dot stripped), in both
providers. -/
theorem C8_relative_record_name
    (cb : Cloudflare.Backend) (cd : Cloudflare.DNSProvider)
    (ib : Infoblox.Backend) (idp : Infoblox.DNSProvider)
    (domain token keyAuth : String) :
    (∀ z r, Cloudflare.Event.create z r ∈ (Cloudflare.Present cb cd domain token keyAuth).2.2 →
      r.name = UnFqdn (GetChallengeInfo domain keyAuth).effectiveFQDN) ∧
    (∀ v n val ttl,
      Infoblox.Event.create v n val ttl ∈ (Infoblox.Present ib idp domain token keyAuth).2.2 →
      n = UnFqdn (GetChallengeInfo domain keyAuth).effectiveFQDN) := by
  constructor
  · intro z r hmem
    rcases h1 : cb.findZone (GetChallengeInfo domain keyAuth).effectiveFQDN with e | az
    · simp [Cloudflare.Present, h1] at hmem
    · rcases h2 : cb.zoneIDByName az with e | zid
      · simp [Cloudflare.Present, h1, h2] at hmem
      · rcases h3 : cb.createDNSRecord zid
            { type := "TXT", name := UnFqdn (GetChallengeInfo domain keyAuth).effectiveFQDN,
              content := "\"" ++ (GetChallengeInfo domain keyAuth).value ++ "\"",
              ttl := cd.config.TTL } with e | rid <;>
          · simp [Cloudflare.Present, h1, h2, h3] at hmem
            rw [hmem.2]
  · intro v n val ttl hmem
    rcases h1 : ib.newConnector with e | u
    · simp [Infoblox.Present, h1] at hmem
    · rcases h2 : ib.createTXTRecord idp.config.DNSView
          (UnFqdn (GetChallengeInfo domain keyAuth).effectiveFQDN)
          (GetChallengeInfo domain keyAuth).value
          (Infoblox.uint32Of idp.config.TTL) with e | ref <;>
        · simp [Infoblox.Present, h1, h2] at hmem
          exact hmem.2.1

/-- C8 witness: the name in the creation call of a concrete `Present` run is
the relative (no trailing dot) form of the effective FQDN. -/
theorem C8_relative_record_name_witness :
    ({ type := "TXT", name := UnFqdn (GetChallengeInfo "example.com" "ka").effectiveFQDN,
        content := "\"" ++ (GetChallengeInfo "example.com" "ka").value ++ "\"",
        ttl := 120 } : Cloudflare.Record).name =
      UnFqdn (GetChallengeInfo "example.com" "ka").effectiveFQDN ∧
    "_acme-challenge.example.com" = UnFqdn (GetChallengeInfo "example.com" "ka").effectiveFQDN :=
  ⟨(C8_relative_record_name cfBackendOk cfProv1 ibBackendOk ibProv1 "example.com" "tok" "ka").1
      "zone-1" _ (by decide),
    (C8_relative_record_name cfBackendOk cfProv1 ibBackendOk ibProv1 "example.com" "tok" "ka").2
      "External" "_acme-challenge.example.com" (GetChallengeInfo "example.com" "ka").value
      (Infoblox.uint32Of 120) (by decide)⟩

/-- C9 (confirmed): on a failing backend delete, the Cloudflare `CleanUp`
treats the failure as non-fatal — it still removes the store entry and returns
success — while the Infoblox `CleanUp` returns the wrapped delete error and
leaves the provider, including its store entry for the token, unchanged. -/
theorem C9_delete_error_policy
    (cb : Cloudflare.Backend) (cd : Cloudflare.DNSProvider)
    (ib : Infoblox.Backend) (idp : Infoblox.DNSProvider)
    (domain token keyAuth az zid recID ref e1 e2 : String)
    (h1 : cb.findZone (GetChallengeInfo domain keyAuth).effectiveFQDN = Except.ok az)
    (h2 : cb.zoneIDByName az = Except.ok zid)
    (h3 : Store.get cd.recordIDs token = some recID)
    (h4 : cb.deleteDNSRecord zid recID = Except.error e1)
    (h5 : ib.newConnector = Except.ok ())
    (h6 : Store.get idp.recordRefs token = some ref)
    (h7 : ib.deleteTXTRecord ref = Except.error e2) :
    ((Cloudflare.CleanUp cb cd domain token keyAuth).1 = Except.ok () ∧
      (Cloudflare.CleanUp cb cd domain token keyAuth).2.1.recordIDs =
        Store.remove cd.recordIDs token) ∧
    ((Infoblox.CleanUp ib idp domain token keyAuth).1 =
        Except.error ("infoblox: could not delete TXT record for " ++ domain ++ ": " ++ e2) ∧
      (Infoblox.CleanUp ib idp domain token keyAuth).2.1 = idp) := by
  refine ⟨?_, ?_⟩
  · simp [Cloudflare.CleanUp, h1, h2, h3]
  · simp [Infoblox.CleanUp, h5, h6, h7]

/-- C9 witness: the statement evaluated on backends whose delete call fails. -/
theorem C9_delete_error_policy_witness :
    ((Cloudflare.CleanUp cfBackendDelGone cfProvWith "example.com" "tok" "ka").1 = Except.ok () ∧
      (Cloudflare.CleanUp cfBackendDelGone cfProvWith "example.com" "tok" "ka").2.1.recordIDs =
        Store.remove cfProvWith.recordIDs "tok") ∧
    ((Infoblox.CleanUp ibBackendDelGone ibProvWith "example.com" "tok" "ka").1 =
        Except.error ("infoblox: could not delete TXT record for " ++ "example.com" ++ ": " ++
          "record does not exist") ∧
      (Infoblox.CleanUp ibBackendDelGone ibProvWith "example.com" "tok" "ka").2.1 = ibProvWith) :=
  C9_delete_error_policy cfBackendDelGone cfProvWith ibBackendDelGone ibProvWith
    "example.com" "tok" "ka" "example.com." "zone-1" "rec-1" "ref-1"
    "record does not exist" "record does not exist" rfl rfl rfl rfl rfl rfl rfl


